import Mathlib

/-!
# Shallow embedding of the Tuya proxy core (api/modules/tuya.js)

This file embeds the token-acquisition / request-signing / action-routing
core of the repository in Lean and proves the specified properties about it.

Modelling conventions:
* External effects (the Redis cache store, the vendor HTTP endpoints,
  `Date.now`, `JSON.parse` / `JSON.stringify`, and the `crypto` hash
  primitives) are explicit inputs: each function takes an environment value
  describing the outcome of every external call it can make, and the crypto
  primitives are abstract function parameters.  The function result is paired
  with a trace recording the externally observable effects (vendor calls,
  cache writes, connection acquisitions and releases).
* JavaScript values flowing through the module are modelled by the JSON-like
  type `JVal`; machine floats are modelled by `ℚ` with an explicit `jnan`
  for NaN (the only arithmetic performed is an exact division by 10).
* `process.env` string falsiness is modelled by the empty string: a missing
  environment variable and an empty one behave identically in the source
  (`!TUYA_CLIENT_ID` is true for both).
* Thrown JS exceptions are modelled with `Except`.
-/

namespace Tuya

/-- JSON-like values, as produced by parsing a vendor response body.
`jnan` models the JavaScript `NaN` number. -/
inductive JVal where
  | jnull : JVal
  | jnan : JVal
  | jbool : Bool → JVal
  | jnum : ℚ → JVal
  | jstr : String → JVal
  | jarr : List JVal → JVal
  | jobj : List (String × JVal) → JVal

/-- First binding of a key in a JS-object field list. -/
def lookupField : List (String × JVal) → String → Option JVal
  | [], _ => none
  | (k, v) :: rest, key => if k = key then some v else lookupField rest key

/-- Models the optional-chained field access `x?.k` followed by an
`!== undefined` test: `some` iff `x` is an object carrying field `k`. -/
def getField (v : JVal) (k : String) : Option JVal :=
  match v with
  | .jobj fields => lookupField fields k
  | _ => none

/-- JavaScript truthiness of a `JVal`. -/
def jvalTruthy : JVal → Bool
  | .jnull => false
  | .jnan => false
  | .jbool b => b
  | .jnum q => decide (q ≠ 0)
  | .jstr s => !s.isEmpty
  | .jarr _ => true
  | .jobj _ => true

/-- Numeric value of a list of decimal digit characters. -/
def digitsToNat (ds : List Char) : Nat :=
  ds.foldl (fun a c => 10 * a + (c.toNat - 48)) 0

/-- Models the JS builtin `parseFloat` on a character list: skip leading
whitespace, then an optional sign, integer digits and an optional decimal
fraction; trailing characters are ignored; `none` models `NaN`.
(Exponents and `Infinity`, which the repository never feeds to
`parseFloat`, are out of the modelled fragment and map to `none`.) -/
def parseFloatChars (cs : List Char) : Option ℚ :=
  let cs1 := cs.dropWhile (fun c => c = ' ' ∨ c = '\t' ∨ c = '\n' ∨ c = '\r')
  let signed : ℚ × List Char :=
    match cs1 with
    | '-' :: rest => (-1, rest)
    | '+' :: rest => (1, rest)
    | rest => (1, rest)
  let intPart := signed.2.takeWhile (fun c => c.isDigit)
  let rest2 := signed.2.dropWhile (fun c => c.isDigit)
  let fracPart :=
    match rest2 with
    | '.' :: r => r.takeWhile (fun c => c.isDigit)
    | _ => []
  if intPart.isEmpty ∧ fracPart.isEmpty then none
  else
    some (signed.1 *
      ((digitsToNat intPart : ℚ) + (digitsToNat fracPart : ℚ) / ((10 : ℚ) ^ fracPart.length)))

/-- `parseFloat` on a string. -/
def parseFloatStr (s : String) : Option ℚ :=
  parseFloatChars s.data

/-- `parseFloat` applied to a JS value: numbers pass through, strings are
parsed, every other value coerces to a non-numeric string and yields NaN. -/
def parseFloatJ : JVal → Option ℚ
  | .jnum q => some q
  | .jstr s => parseFloatStr s
  | _ => none

/-- The error thrown by `generateSign` when a credential is falsy. -/
inductive SignError where
  | missingCredentials
deriving DecidableEq

/-- Result object of `generateSign`. -/
structure SignResult where
  sign : String
  timestamp : String
  clientId : String
deriving DecidableEq

/-- Embedding of `generateSign(method, path, body = "", token = "")`
(api/modules/tuya.js lines 6-26).  `sha256hex` and `hmacSha256hex` are the
abstract crypto primitives (`hmacSha256hex key msg` is the lowercase hex
HMAC); `timestamp` is the `Date.now().toString()` value, made an input;
`clientId` / `clientSecret` are the `process.env` credentials, with the
empty string standing for an absent variable. -/
def generateSign (sha256hex : String → String) (hmacSha256hex : String → String → String)
    (clientId clientSecret : String) (timestamp : String)
    (method path : String) (body : String := "") (token : String := "") :
    Except SignError SignResult :=
  if clientId.isEmpty ∨ clientSecret.isEmpty then
    .error .missingCredentials
  else
    let contentHash := sha256hex body
    let stringToSign := method ++ "\n" ++ contentHash ++ "\n\n" ++ path
    let signStr := clientId ++ token ++ timestamp ++ stringToSign
    .ok ⟨(hmacSha256hex clientSecret signStr).toUpper, timestamp, clientId⟩

/-- Outcome of one `getRedisClient()` connection attempt. -/
inductive ConnOutcome where
  | ok
  | fail
deriving DecidableEq

/-- Outcome of the `redisClient.get(redisKey)` read: a stored value, an
absent key, or a thrown error. -/
inductive GetOutcome where
  | hit (token : String)
  | miss
  | err
deriving DecidableEq

/-- Outcome of the vendor token request: a network-level failure, or a
decoded envelope with its `success` flag, optional `result.access_token`
and `result.expire_time` (seconds). -/
inductive VendorAuthOutcome where
  | netErr
  | resp (success : Bool) (access_token : Option String) (expire_time : Int)
deriving DecidableEq

/-- Environment of one `getAccessToken()` call: the outcome of every
external call it can make.  `connect2` is the reconnection attempted for
the cache write when the read connection is no longer held; `setOk` is the
outcome of the `redisClient.set` call (recorded in the trace, swallowed by
the code). -/
structure AuthEnv where
  connect1 : ConnOutcome
  get1 : GetOutcome
  vendor : VendorAuthOutcome
  connect2 : ConnOutcome
  setOk : Bool
deriving DecidableEq

/-- Errors `getAccessToken` can propagate to its caller.  (There is no
cache-error constructor: every cache-store failure is handled inside.) -/
inductive AuthError where
  | credsMissing
  | netErr
  | badEnvelope
deriving DecidableEq

/-- Externally observable effects of one `getAccessToken()` call.
`setAttempts` records each attempted cache write as (TTL used, set outcome);
`readConn…` describes the connection from `connect1`, `writeConn…` the one
from the `connect2` reconnection. -/
structure AuthTrace where
  vendorCalls : Nat
  setAttempts : List (Int × Bool)
  readConnAcquired : Bool
  readConnQuits : Nat
  writeConnAcquired : Bool
  writeConnQuits : Nat
deriving DecidableEq

/-- The fixed vendor auth path. -/
def tokenRequestPath : String := "/v1.0/token?grant_type=1"

/-- Embedding of the fetch-and-cache tail of `getAccessToken`
(lines 55-114): sign the token request, call the vendor, compute the TTL,
try to persist, always return the fresh token; the outer catch releases a
still-held read connection before rethrowing.  `held` says whether the
`connect1` connection is still open, `racq` whether it was ever acquired,
`rq` how many times it was already quit. -/
def fetchAndCacheToken (sha256hex : String → String) (hmacSha256hex : String → String → String)
    (clientId clientSecret now : String) (env : AuthEnv)
    (held racq : Bool) (rq : Nat) : Except AuthError String × AuthTrace :=
  match generateSign sha256hex hmacSha256hex clientId clientSecret now "GET" tokenRequestPath "" "" with
  | .error _ =>
    (.error .credsMissing, ⟨0, [], racq, rq + (if held then 1 else 0), false, 0⟩)
  | .ok _ =>
    match env.vendor with
    | .netErr =>
      (.error .netErr, ⟨1, [], racq, rq + (if held then 1 else 0), false, 0⟩)
    | .resp success tokOpt expireTime =>
      match success, tokOpt with
      | true, some token =>
        if token.isEmpty then
          (.error .badEnvelope, ⟨1, [], racq, rq + (if held then 1 else 0), false, 0⟩)
        else
          let ttl : Int := if expireTime > 60 then expireTime - 60 else expireTime
          if held then
            (.ok token,
              ⟨1, if ttl > 0 then [(ttl, env.setOk)] else [], racq, rq + 1, false, 0⟩)
          else
            match env.connect2 with
            | .ok =>
              (.ok token,
                ⟨1, if ttl > 0 then [(ttl, env.setOk)] else [], racq, rq, true, 1⟩)
            | .fail =>
              (.ok token, ⟨1, [], racq, rq, false, 0⟩)
      | _, _ =>
        (.error .badEnvelope, ⟨1, [], racq, rq + (if held then 1 else 0), false, 0⟩)

/-- Embedding of `getAccessToken()` (lines 29-115).  The cache-read phase
(lines 35-53): a connection or read failure is swallowed and falls through
to the vendor fetch; a truthy cached value is returned at once after
quitting the connection; a falsy one (absent key, or the stored empty
string) falls through with the connection still held. -/
def getAccessToken (sha256hex : String → String) (hmacSha256hex : String → String → String)
    (clientId clientSecret now : String) (env : AuthEnv) :
    Except AuthError String × AuthTrace :=
  match env.connect1 with
  | .fail =>
    fetchAndCacheToken sha256hex hmacSha256hex clientId clientSecret now env false false 0
  | .ok =>
    match env.get1 with
    | .hit token =>
      if token.isEmpty then
        fetchAndCacheToken sha256hex hmacSha256hex clientId clientSecret now env true true 0
      else
        (.ok token, ⟨0, [], true, 1, false, 0⟩)
    | .miss =>
      fetchAndCacheToken sha256hex hmacSha256hex clientId clientSecret now env true true 0
    | .err =>
      fetchAndCacheToken sha256hex hmacSha256hex clientId clientSecret now env false true 1

/-- Decoded vendor response envelope (`response.data`), a typed view of the
JSON object: the `success` flag (absent modelled as `false`), the optional
numeric `code`, the optional `msg` string, and the optional `result`. -/
structure Envelope where
  success : Bool
  code : Option Int
  msg : Option String
  result : Option JVal

/-- Outcome of one `axios(requestConfig)` resource call: a network-level
failure (which the code turns into a thrown error), or an HTTP status in
[200,500) with a decoded envelope (`validateStatus` makes axios throw on
status ≥ 500, so that case is `netErr`). -/
inductive HttpOutcome where
  | netErr
  | resp (status : Nat) (data : Envelope)

/-- Environment of one attempt of `makeCustomRequest`: the nested
`getAccessToken` environment, the resource-call outcome, and the outcomes
of the best-effort token-deletion connection used by the retry branch. -/
structure AttemptEnv where
  auth : AuthEnv
  http : HttpOutcome
  delConn : ConnOutcome
  delOk : Bool

/-- Errors `makeCustomRequest` can propagate: a rethrown `getAccessToken`
error (or a `generateSign` credentials error, thrown as the same JS
exception) and a resource-call network failure. -/
inductive McrError where
  | authErr (e : AuthError)
  | httpNetErr

/-- Externally observable effects of a `makeCustomRequest` call:
`resourceCalls` counts axios resource requests, `auths` collects the
traces of the nested `getAccessToken` calls in order, `dels` records the
token-deletion connection of each retry branch as (acquired?, quits). -/
structure McrTrace where
  resourceCalls : Nat
  auths : List AuthTrace
  dels : List (Bool × Nat)

/-- Embedding of `makeCustomRequest(method, path, data = null, retry = true)`
(lines 117-195).  `attempts b` is the external environment of the attempt
running with retry flag `b` (the initial call sees `attempts true`, the
recursive one `attempts false`); `stringify` models `JSON.stringify`.
On a decoded envelope whose `code` is the sentinel 1010 with the retry flag
set, the cached token is deleted best-effort (connection quit in a
`finally`, failures swallowed) and the call re-invokes itself once with the
flag cleared; otherwise the envelope is returned as-is. -/
def makeCustomRequest (sha256hex : String → String) (hmacSha256hex : String → String → String)
    (stringify : JVal → String) (clientId clientSecret now : String)
    (attempts : Bool → AttemptEnv) (method path : String) (data : Option JVal)
    (retry : Bool) : Except McrError Envelope × McrTrace :=
  let aenv := attempts retry
  match getAccessToken sha256hex hmacSha256hex clientId clientSecret now aenv.auth with
  | (.error e, authTr) => (.error (.authErr e), ⟨0, [authTr], []⟩)
  | (.ok access_token, authTr) =>
    let body := match data with | some d => stringify d | none => ""
    match generateSign sha256hex hmacSha256hex clientId clientSecret now
        method.toUpper path body access_token with
    | .error _ => (.error (.authErr .credsMissing), ⟨0, [authTr], []⟩)
    | .ok _ =>
      match aenv.http with
      | .netErr => (.error .httpNetErr, ⟨1, [authTr], []⟩)
      | .resp _status respData =>
        if h : respData.code = some 1010 ∧ retry = true then
          let delInfo : Bool × Nat :=
            match aenv.delConn with
            | .ok => (true, 1)
            | .fail => (false, 0)
          let r2 := makeCustomRequest sha256hex hmacSha256hex stringify clientId clientSecret now
            attempts method path data false
          (r2.1, ⟨1 + r2.2.resourceCalls, authTr :: r2.2.auths, delInfo :: r2.2.dels⟩)
        else
          (.ok respData, ⟨1, [authTr], []⟩)
termination_by (if retry then 1 else 0)
decreasing_by simp [h.2]

/-- `String.toLower` (used by the control action on the command value),
written over the character list so that it reduces by computation. -/
def toLowerStr (s : String) : String :=
  ⟨s.data.map Char.toLower⟩

/-- Truthiness of an optional query-parameter string. -/
def optTruthy : Option String → Bool
  | some s => !s.isEmpty
  | none => false

/-- Models the JS default idiom `x || d` on an optional string. -/
def orDefault (o : Option String) (d : String) : String :=
  match o with
  | some s => if s.isEmpty then d else s
  | none => d

/-- A JS object field that is dropped when its value is `undefined`
(as `JSON.stringify` does for the response objects built by the module). -/
def optField (k : String) : Option JVal → List (String × JVal)
  | some v => [(k, v)]
  | none => []

/-- The raw vendor envelope as a JSON value (used where the module echoes
`response.data` into its own response objects). -/
def envelopeToJVal (e : Envelope) : JVal :=
  .jobj ([("success", .jbool e.success)]
    ++ optField "code" (e.code.map (fun c => .jnum (c : ℚ)))
    ++ optField "msg" (e.msg.map .jstr)
    ++ optField "result" e.result)

/-- Models `result.msg || d`. -/
def msgOr (e : Envelope) (d : String) : String :=
  match e.msg with
  | some m => if m.isEmpty then d else m
  | none => d

/-- Models `result.result || d`. -/
def resultOr (e : Envelope) (d : JVal) : JVal :=
  match e.result with
  | some v => if jvalTruthy v then v else d
  | none => d

/-- What the module handler observes of an error thrown by
`makeCustomRequest`: its message and the optional `error.response?.data`. -/
structure HandlerErr where
  message : String
  responseData : Option Envelope

/-- The catch-all failure object of the module handler (lines 317-325). -/
def catchObj (err : HandlerErr) : JVal :=
  .jobj ([("success", .jbool false), ("error", .jstr err.message)]
    ++ optField "tuya_response" (err.responseData.map envelopeToJVal)
    ++ [("message", .jstr "Internal error processing Tuya request.")])

/-- The structured failure of the `status` action when the envelope does
not have the expected shape (lines 244-250). -/
def statusFailObj (result : Envelope) : JVal :=
  .jobj [("success", .jbool false),
    ("message", .jstr "Failed to parse device status data"),
    ("tuya_response", envelopeToJVal result)]

/-- The query parameters consumed by the module handler. -/
structure QueryParams where
  action : Option String := none
  path : Option String := none
  method : Option String := none
  data : Option String := none
  id : Option String := none
  command : Option String := none
  code : Option String := none

/-- Log of the `makeCustomRequest` invocations the handler performs, as
(method, path, data) triples.  An empty log means no network and no cache
call: every remote interaction of the handler goes through
`makeCustomRequest`. -/
abbrev CallLog := List (String × String × Option JVal)

/-- Embedding of the module export function (lines 198-326).  `mcr` is the
`makeCustomRequest` collaborator (already specialised to an environment);
`parseJson` models `JSON.parse` with the thrown message on failure; `now`
is the `new Date().toISOString()` timestamp.  Returns the response value
together with the log of `makeCustomRequest` invocations. -/
def tuyaHandler (parseJson : String → Except String JVal)
    (mcr : String → String → Option JVal → Except HandlerErr Envelope)
    (clientId clientSecret now : String) (qp : QueryParams) : JVal × CallLog :=
  if clientId.isEmpty ∨ clientSecret.isEmpty then
    (.jobj [("success", .jbool false),
      ("message", .jstr "Server error: Missing Tuya credentials.")], [])
  else
    let action := orDefault qp.action "test"
    if action = "test" then
      (.jobj [("success", .jbool true), ("message", .jstr "Tuya module working"),
        ("timestamp", .jstr now)], [])
    else if action = "request" ∧ optTruthy qp.path then
      let method := (orDefault qp.method "GET").toUpper
      let p0 := qp.path.getD ""
      let path := if p0.startsWith "/" then p0 else "/" ++ p0
      let doRequest := fun (dat : Option JVal) =>
        match mcr method path dat with
        | .error err => (catchObj err, [(method, path, dat)])
        | .ok result =>
          (JVal.jobj [("success", .jbool result.success), ("path", .jstr path),
            ("method", .jstr method), ("result", envelopeToJVal result),
            ("message", .jstr ("Request " ++ method ++ " " ++ path ++ " processed."))],
           [(method, path, dat)])
      if optTruthy qp.data then
        match parseJson (qp.data.getD "") with
        | .error emsg =>
          (.jobj [("success", .jbool false),
            ("message", .jstr "Invalid JSON format in data parameter"),
            ("error", .jstr emsg)], [])
        | .ok d => doRequest (some d)
      else
        doRequest none
    else if action = "status" ∧ optTruthy qp.id then
      let deviceId := qp.id.getD ""
      let path := "/v1.0/iot-03/devices/" ++ deviceId ++ "/status"
      match mcr "GET" path none with
      | .error err => (catchObj err, [("GET", path, none)])
      | .ok result =>
        let log : CallLog := [("GET", path, none)]
        match result.result with
        | some (.jarr (x :: _)) =>
          if result.success then
            match getField x "value" with
            | some v =>
              (match parseFloatJ v with
               | some q => (.jnum (q / 10), log)
               | none => (.jnan, log))
            | none => (statusFailObj result, log)
          else (statusFailObj result, log)
        | _ => (statusFailObj result, log)
    else if action = "devices" then
      let path := "/v1.0/users/me/devices"
      match mcr "GET" path none with
      | .error err => (catchObj err, [("GET", path, none)])
      | .ok result =>
        (JVal.jobj ([("success", .jbool result.success),
          ("devices", resultOr result (.jarr [])),
          ("message", .jstr (if result.success then "Tuya device list retrieved"
            else "Error getting device list: " ++ msgOr result "Unknown error"))]
          ++ optField "tuya_code" (result.code.map (fun c => .jnum (c : ℚ)))
          ++ optField "tuya_msg" (result.msg.map .jstr)),
         [("GET", path, none)])
    else if action = "state" ∧ optTruthy qp.id then
      let deviceId := qp.id.getD ""
      let path := "/v1.0/devices/" ++ deviceId
      match mcr "GET" path none with
      | .error err => (catchObj err, [("GET", path, none)])
      | .ok result =>
        (JVal.jobj ([("success", .jbool result.success),
          ("state", resultOr result .jnull),
          ("message", .jstr (if result.success then "State for device " ++ deviceId
            else "Error getting state: " ++ msgOr result "Unknown error"))]
          ++ optField "tuya_code" (result.code.map (fun c => .jnum (c : ℚ)))
          ++ optField "tuya_msg" (result.msg.map .jstr)),
         [("GET", path, none)])
    else if action = "control" ∧ optTruthy qp.id ∧ optTruthy qp.command then
      let deviceId := qp.id.getD ""
      let command := toLowerStr (qp.command.getD "")
      if command ≠ "on" ∧ command ≠ "off" then
        (.jobj [("success", .jbool false),
          ("message", .jstr "Invalid command. Only \"on\" or \"off\" are supported.")], [])
      else
        let cmdCode := orDefault qp.code "switch_1"
        let path := "/v1.0/devices/" ++ deviceId ++ "/commands"
        let payload := JVal.jobj [("commands",
          .jarr [.jobj [("code", .jstr cmdCode), ("value", .jbool (command == "on"))]])]
        match mcr "POST" path (some payload) with
        | .error err => (catchObj err, [("POST", path, some payload)])
        | .ok result =>
          (JVal.jobj ([("success", .jbool result.success)]
            ++ optField "result" result.result
            ++ [("message", .jstr (if result.success then
                "Command " ++ command ++ " (code: " ++ cmdCode ++
                  ") successfully sent to device " ++ deviceId
              else
                "Error sending command to device " ++ deviceId ++ ": " ++
                  msgOr result "Unknown error"))]
            ++ optField "tuya_code" (result.code.map (fun c => .jnum (c : ℚ)))
            ++ optField "tuya_msg" (result.msg.map .jstr)),
           [("POST", path, some payload)])
    else
      (.jobj [("success", .jbool false),
        ("message", .jstr "Unknown action or missing required parameters."),
        ("action", .jstr action)], [])

/-! ## Concrete doubles used by witnesses -/

/-- A concrete stand-in for the SHA-256 hex primitive. -/
def shaD : String → String := fun s => "sha-" ++ s

/-- A concrete stand-in for the HMAC-SHA256 hex primitive. -/
def hmacD : String → String → String := fun k m => "hmac-" ++ k ++ "-" ++ m

/-- A concrete stand-in for `JSON.stringify`. -/
def stringifyD : JVal → String := fun _ => "data"

/-- A concrete stand-in for `JSON.parse` that always fails. -/
def parseJsonD : String → Except String JVal := fun _ => .error "unexpected token"

/-- The sentinel-code envelope used by the C1 witness. -/
def env1010W : Envelope := ⟨false, some 1010, some "token invalid", none⟩

/-- Attempt environments for the C1 witness: the vendor answers every
resource request with the sentinel 1010 envelope. -/
def attemptsW : Bool → AttemptEnv :=
  fun _ => ⟨⟨.ok, .miss, .resp true (some "tok") 7200, .ok, true⟩,
    .resp 200 env1010W, .ok, true⟩

/-- A `makeCustomRequest` double that always fails with a network error
(used by witnesses whose claims must not reach the network). -/
def mcrNetD : String → String → Option JVal → Except HandlerErr Envelope :=
  fun _ _ _ => .error ⟨"net", none⟩

/-- A `makeCustomRequest` double answering every request with a successful
status envelope whose first element carries the value "235". -/
def mcrStatusD : String → String → Option JVal → Except HandlerErr Envelope :=
  fun _ _ _ => .ok ⟨true, none, none, some (.jarr [.jobj [("value", .jstr "235")]])⟩

/-- A `makeCustomRequest` double answering with a successful status
envelope whose first element has no `value` field. -/
def mcrNoValueD : String → String → Option JVal → Except HandlerErr Envelope :=
  fun _ _ _ => .ok ⟨true, none, none, some (.jarr [.jobj [("code", .jstr "temp")]])⟩

/-- A trace of `getAccessToken` releases each connection it acquired
exactly once (and never quits a connection it did not acquire). -/
def authConnsReleased (t : AuthTrace) : Bool :=
  (t.readConnQuits == (if t.readConnAcquired then 1 else 0)) &&
  (t.writeConnQuits == (if t.writeConnAcquired then 1 else 0))

/-- A trace of `makeCustomRequest` releases every connection exactly once:
all nested `getAccessToken` connections and each retry-branch deletion
connection. -/
def mcrConnsReleased (t : McrTrace) : Bool :=
  t.auths.all authConnsReleased &&
  t.dels.all (fun d => d.2 == (if d.1 then 1 else 0))

/-- The environment exercising the 60-second-margin boundary: a cache miss
followed by a successful vendor response with `expire_time = 30`. -/
def envMargin : AuthEnv := ⟨.ok, .miss, .resp true (some "tok") 30, .ok, true⟩

/-! ## Helper lemmas about the token fetch-and-cache phase -/

/-- The fetch phase always makes exactly one vendor auth call and at most
one cache-write attempt (given present credentials, so the vendor call is
reached). -/
theorem fetchAndCacheToken_calls (sha256hex : String → String)
    (hmacSha256hex : String → String → String) (cid cs now : String) (env : AuthEnv)
    (held racq : Bool) (rq : Nat)
    (hcid : cid.isEmpty = false) (hcs : cs.isEmpty = false) :
    (fetchAndCacheToken sha256hex hmacSha256hex cid cs now env held racq rq).2.vendorCalls = 1 ∧
    (fetchAndCacheToken sha256hex hmacSha256hex cid cs now env held racq rq).2.setAttempts.length ≤ 1 := by
  unfold fetchAndCacheToken
  simp only [generateSign, hcid, hcs, Bool.false_eq_true, or_self, if_false]
  repeat' split
  all_goals simp_all

/-- On a successful vendor response with a truthy token, the fetch phase
returns that fresh token whatever the cache-write environment does. -/
theorem fetchAndCacheToken_ok (sha256hex : String → String)
    (hmacSha256hex : String → String → String) (cid cs now : String) (env : AuthEnv)
    (held racq : Bool) (rq : Nat)
    (hcid : cid.isEmpty = false) (hcs : cs.isEmpty = false)
    (t : String) (et : Int) (hv : env.vendor = .resp true (some t) et)
    (ht : t.isEmpty = false) :
    (fetchAndCacheToken sha256hex hmacSha256hex cid cs now env held racq rq).1 = .ok t := by
  unfold fetchAndCacheToken
  simp only [generateSign, hcid, hcs, Bool.false_eq_true, or_self, if_false, hv]
  repeat' split
  all_goals simp_all

/-- Every attempted cache write uses the TTL computed from `expire_time`
by the 60-second-margin formula, and that TTL is positive. -/
theorem fetchAndCacheToken_setAttempts (sha256hex : String → String)
    (hmacSha256hex : String → String → String) (cid cs now : String) (env : AuthEnv)
    (held racq : Bool) (rq : Nat)
    (hcid : cid.isEmpty = false) (hcs : cs.isEmpty = false)
    (t : String) (et : Int) (hv : env.vendor = .resp true (some t) et) :
    ∀ p ∈ (fetchAndCacheToken sha256hex hmacSha256hex cid cs now env held racq rq).2.setAttempts,
      p.1 = (if et > 60 then et - 60 else et) ∧ 0 < p.1 := by
  unfold fetchAndCacheToken
  simp only [generateSign, hcid, hcs, Bool.false_eq_true, or_self, if_false, hv]
  repeat' split
  all_goals simp_all

/-- When the computed TTL is not positive, no cache write is attempted. -/
theorem fetchAndCacheToken_sets_empty (sha256hex : String → String)
    (hmacSha256hex : String → String → String) (cid cs now : String) (env : AuthEnv)
    (held racq : Bool) (rq : Nat)
    (hcid : cid.isEmpty = false) (hcs : cs.isEmpty = false)
    (t : String) (et : Int) (hv : env.vendor = .resp true (some t) et)
    (httl : (if et > 60 then et - 60 else et) ≤ 0) :
    (fetchAndCacheToken sha256hex hmacSha256hex cid cs now env held racq rq).2.setAttempts = [] := by
  unfold fetchAndCacheToken
  simp only [generateSign, hcid, hcs, Bool.false_eq_true, or_self, if_false, hv]
  repeat' split
  all_goals simp_all
  all_goals omega

/-- When the computed TTL is positive and the read connection is still
held, exactly one cache write is attempted with that TTL. -/
theorem fetchAndCacheToken_sets_attempt (sha256hex : String → String)
    (hmacSha256hex : String → String → String) (cid cs now : String) (env : AuthEnv)
    (racq : Bool) (rq : Nat)
    (hcid : cid.isEmpty = false) (hcs : cs.isEmpty = false)
    (t : String) (et : Int) (hv : env.vendor = .resp true (some t) et)
    (ht : t.isEmpty = false)
    (httl : 0 < (if et > 60 then et - 60 else et)) :
    (fetchAndCacheToken sha256hex hmacSha256hex cid cs now env true racq rq).2.setAttempts =
      [((if et > 60 then et - 60 else et), env.setOk)] := by
  unfold fetchAndCacheToken
  simp only [generateSign, hcid, hcs, Bool.false_eq_true, or_self, if_false, hv]
  repeat' split
  all_goals simp_all

/-- The fetch phase leaves every connection released exactly once,
provided the hand-off counters are consistent (the read connection has
been quit once already unless it is still held). -/
theorem fetchAndCacheToken_released (sha256hex : String → String)
    (hmacSha256hex : String → String → String) (cid cs now : String) (env : AuthEnv)
    (held racq : Bool) (rq : Nat)
    (h : rq + (if held = true then 1 else 0) = (if racq = true then 1 else 0)) :
    authConnsReleased (fetchAndCacheToken sha256hex hmacSha256hex cid cs now env held racq rq).2 = true := by
  unfold fetchAndCacheToken authConnsReleased
  repeat' split
  all_goals simp_all

/-- Every `getAccessToken` run releases each acquired connection exactly
once, on every exit path. -/
theorem getAccessToken_released (sha256hex : String → String)
    (hmacSha256hex : String → String → String) (cid cs now : String) (env : AuthEnv) :
    authConnsReleased (getAccessToken sha256hex hmacSha256hex cid cs now env).2 = true := by
  unfold getAccessToken
  repeat' split
  all_goals first
    | exact fetchAndCacheToken_released _ _ _ _ _ _ _ _ _ (by decide)
    | simp [authConnsReleased]

/-- Every `makeCustomRequest` run releases each acquired connection
exactly once: the nested `getAccessToken` connections and the retry
branch deletion connection. -/
theorem makeCustomRequest_released (sha256hex : String → String)
    (hmacSha256hex : String → String → String) (stringify : JVal → String)
    (cid cs now : String) (attempts : Bool → AttemptEnv)
    (method path : String) (data : Option JVal) :
    ∀ retry, mcrConnsReleased
      (makeCustomRequest sha256hex hmacSha256hex stringify cid cs now attempts
        method path data retry).2 = true := by
  have hfalse : mcrConnsReleased
      (makeCustomRequest sha256hex hmacSha256hex stringify cid cs now attempts
        method path data false).2 = true := by
    have hrel := getAccessToken_released sha256hex hmacSha256hex cid cs now (attempts false).auth
    rcases hga : getAccessToken sha256hex hmacSha256hex cid cs now (attempts false).auth with ⟨r, tr⟩
    rw [hga] at hrel
    simp only at hrel
    rw [makeCustomRequest.eq_def]
    dsimp only
    rw [hga]
    repeat' split
    all_goals simp_all [mcrConnsReleased]
  intro retry
  cases retry
  · exact hfalse
  · have hrel := getAccessToken_released sha256hex hmacSha256hex cid cs now (attempts true).auth
    rcases hga : getAccessToken sha256hex hmacSha256hex cid cs now (attempts true).auth with ⟨r, tr⟩
    rw [hga] at hrel
    simp only at hrel
    rw [makeCustomRequest.eq_def]
    dsimp only
    rw [hga]
    repeat' split
    all_goals simp_all [mcrConnsReleased]
    all_goals exact hfalse.2

/-! ## Claims -/

/-- Claim C9: a cache hit returns the cached token with zero vendor auth
calls; a cache miss (or read failure, or connection failure) issues exactly
one vendor auth call and at most one cache write. -/
theorem getAccessToken_call_counts (sha256hex : String → String)
    (hmacSha256hex : String → String → String) (clientId clientSecret now : String)
    (env : AuthEnv) (tok : String) :
    ((env.connect1 = .ok ∧ env.get1 = .hit tok ∧ tok.isEmpty = false) →
      (getAccessToken sha256hex hmacSha256hex clientId clientSecret now env).1 = .ok tok ∧
      (getAccessToken sha256hex hmacSha256hex clientId clientSecret now env).2.vendorCalls = 0) ∧
    ((env.connect1 = .fail ∨ env.get1 = .miss ∨ env.get1 = .err) →
      clientId.isEmpty = false → clientSecret.isEmpty = false →
      (getAccessToken sha256hex hmacSha256hex clientId clientSecret now env).2.vendorCalls = 1 ∧
      (getAccessToken sha256hex hmacSha256hex clientId clientSecret now env).2.setAttempts.length ≤ 1) := by
  constructor
  · rintro ⟨h1, h2, h3⟩
    unfold getAccessToken
    simp [h1, h2, h3]
  · intro hmiss hcid hcs
    unfold getAccessToken
    rcases hmiss with h | h | h
    · rw [h]
      exact fetchAndCacheToken_calls _ _ _ _ _ _ _ _ _ hcid hcs
    · cases hc : env.connect1 <;> rw [h] <;>
        exact fetchAndCacheToken_calls _ _ _ _ _ _ _ _ _ hcid hcs
    · cases hc : env.connect1 <;> rw [h] <;>
        exact fetchAndCacheToken_calls _ _ _ _ _ _ _ _ _ hcid hcs

/-- Witness for C9: a concrete cache hit (zero vendor calls) and a
concrete cache miss (one vendor call, one cache write). -/
theorem getAccessToken_call_counts_witness :
    ((getAccessToken shaD hmacD "cid" "secret" "0"
        ⟨.ok, .hit "cached", .netErr, .fail, false⟩).1 = .ok "cached" ∧
      (getAccessToken shaD hmacD "cid" "secret" "0"
        ⟨.ok, .hit "cached", .netErr, .fail, false⟩).2.vendorCalls = 0) ∧
    ((getAccessToken shaD hmacD "cid" "secret" "0"
        ⟨.ok, .miss, .resp true (some "tok") 7200, .ok, true⟩).2.vendorCalls = 1 ∧
      (getAccessToken shaD hmacD "cid" "secret" "0"
        ⟨.ok, .miss, .resp true (some "tok") 7200, .ok, true⟩).2.setAttempts.length ≤ 1) :=
  ⟨(getAccessToken_call_counts shaD hmacD "cid" "secret" "0"
      ⟨.ok, .hit "cached", .netErr, .fail, false⟩ "cached").1 ⟨rfl, rfl, by decide⟩,
   (getAccessToken_call_counts shaD hmacD "cid" "secret" "0"
      ⟨.ok, .miss, .resp true (some "tok") 7200, .ok, true⟩ "cached").2
     (Or.inr (Or.inl rfl)) (by decide) (by decide)⟩

/-- Claim C3: when the vendor auth call would succeed, `getAccessToken`
succeeds whatever the cache store does (no cache-store error is ever
propagated), and in particular when every cache-store operation fails it
still returns the fresh vendor token. -/
theorem getAccessToken_cache_failures_swallowed (sha256hex : String → String)
    (hmacSha256hex : String → String → String) (clientId clientSecret now : String)
    (env : AuthEnv) (t : String) (et : Int)
    (hcid : clientId.isEmpty = false) (hcs : clientSecret.isEmpty = false)
    (hv : env.vendor = .resp true (some t) et) (ht : t.isEmpty = false) :
    (∃ v, (getAccessToken sha256hex hmacSha256hex clientId clientSecret now env).1 = .ok v) ∧
    ((env.connect1 = .fail ∨ env.get1 = .err) →
      (env.connect2 = .fail ∨ env.setOk = false) →
      (getAccessToken sha256hex hmacSha256hex clientId clientSecret now env).1 = .ok t) := by
  have hfetch : ∀ held racq rq,
      (fetchAndCacheToken sha256hex hmacSha256hex clientId clientSecret now env held racq rq).1 = .ok t :=
    fun held racq rq =>
      fetchAndCacheToken_ok sha256hex hmacSha256hex clientId clientSecret now env held racq rq
        hcid hcs t et hv ht
  constructor
  · unfold getAccessToken
    rcases hg : env.get1 with ⟨tk⟩ | _ | _ <;> cases hc : env.connect1
    all_goals simp [hfetch]
    all_goals split
    all_goals simp [hfetch]
  · rintro (h | h) _
    · unfold getAccessToken
      rw [h]
      exact hfetch false false 0
    · unfold getAccessToken
      cases hc : env.connect1 <;> rw [h] <;> exact hfetch _ _ _

/-- Witness for C3: the whole cache store is unreachable (both connection
attempts fail), yet the fresh vendor token is returned. -/
theorem getAccessToken_cache_failures_swallowed_witness :
    (getAccessToken shaD hmacD "cid" "secret" "0"
        ⟨.fail, .miss, .resp true (some "fresh") 7200, .fail, false⟩).1 = .ok "fresh" :=
  (getAccessToken_cache_failures_swallowed shaD hmacD "cid" "secret" "0"
      ⟨.fail, .miss, .resp true (some "fresh") 7200, .fail, false⟩ "fresh" 7200
      (by decide) (by decide) rfl (by decide)).2 (Or.inl rfl) (Or.inl rfl)

/-- Claim C2 counterexample: the claim says a token whose vendor-reported
remaining lifetime is ≤ the 60-second margin is not written to the cache,
but with `expire_time = 30 ≤ 60` the code computes TTL = 30 > 0 and does
write the token, with TTL 30. -/
theorem getAccessToken_margin_counterexample :
    ((30 : Int) ≤ 60) ∧
    (getAccessToken shaD hmacD "cid" "secret" "0" envMargin).1 = .ok "tok" ∧
    (getAccessToken shaD hmacD "cid" "secret" "0" envMargin).2.setAttempts =
      [((30 : Int), true)] :=
  ⟨by norm_num, rfl, rfl⟩

/-- Reduction of `getAccessToken` to its fetch phase on every path that
does not return a truthy cached token, recording the held/acquired/quit
state of the read connection at the hand-off. -/
theorem getAccessToken_eq_fetch (sha256hex : String → String)
    (hmacSha256hex : String → String → String) (clientId clientSecret now : String)
    (env : AuthEnv)
    (hnohit : env.connect1 = .fail ∨ env.get1 = .miss ∨ env.get1 = .err ∨ env.get1 = .hit "") :
    ∃ held racq rq,
      getAccessToken sha256hex hmacSha256hex clientId clientSecret now env =
        fetchAndCacheToken sha256hex hmacSha256hex clientId clientSecret now env held racq rq ∧
      (env.connect1 = .ok → env.get1 = .miss → held = true) := by
  rcases hnohit with h | h | h | h
  · exact ⟨false, false, 0, by unfold getAccessToken; rw [h],
      fun hc _ => absurd (h.symm.trans hc) (by decide)⟩
  · cases hc : env.connect1
    · exact ⟨true, true, 0, by unfold getAccessToken; rw [hc, h], fun _ _ => rfl⟩
    · exact ⟨false, false, 0, by unfold getAccessToken; rw [hc],
        fun hc2 _ => absurd hc2 (by decide)⟩
  · cases hc : env.connect1
    · exact ⟨false, true, 1, by unfold getAccessToken; rw [hc, h],
        fun _ hg => absurd (h.symm.trans hg) (by decide)⟩
    · exact ⟨false, false, 0, by unfold getAccessToken; rw [hc],
        fun hc2 _ => absurd hc2 (by decide)⟩
  · cases hc : env.connect1
    · exact ⟨true, true, 0, by unfold getAccessToken; rw [hc, h]; rfl,
        fun _ hg => absurd (h.symm.trans hg) (by decide)⟩
    · exact ⟨false, false, 0, by unfold getAccessToken; rw [hc],
        fun hc2 _ => absurd hc2 (by decide)⟩

/-- Claim C2 (amended): `getAccessToken` never persists a token with a
non-positive TTL; the computed TTL is `expire_time - 60` when
`expire_time > 60` and `expire_time` itself otherwise; the cache write is
skipped precisely when that TTL is not positive (so for
`0 < expire_time <= 60` the token IS persisted, with TTL `expire_time`);
and the freshly obtained token is always returned regardless of whether
the cache write happened. -/
theorem getAccessToken_ttl_policy (sha256hex : String → String)
    (hmacSha256hex : String → String → String) (clientId clientSecret now : String)
    (env : AuthEnv) (t : String) (et : Int)
    (hcid : clientId.isEmpty = false) (hcs : clientSecret.isEmpty = false)
    (hv : env.vendor = .resp true (some t) et) (ht : t.isEmpty = false)
    (hnohit : env.connect1 = .fail ∨ env.get1 = .miss ∨ env.get1 = .err ∨ env.get1 = .hit "") :
    (getAccessToken sha256hex hmacSha256hex clientId clientSecret now env).1 = .ok t ∧
    (∀ p ∈ (getAccessToken sha256hex hmacSha256hex clientId clientSecret now env).2.setAttempts,
      p.1 = (if et > 60 then et - 60 else et) ∧ 0 < p.1) ∧
    ((if et > 60 then et - 60 else et) ≤ 0 →
      (getAccessToken sha256hex hmacSha256hex clientId clientSecret now env).2.setAttempts = []) ∧
    (0 < (if et > 60 then et - 60 else et) → env.connect1 = .ok → env.get1 = .miss →
      (getAccessToken sha256hex hmacSha256hex clientId clientSecret now env).2.setAttempts =
        [((if et > 60 then et - 60 else et), env.setOk)]) := by
  obtain ⟨held, racq, rq, heq, hheld⟩ :=
    getAccessToken_eq_fetch sha256hex hmacSha256hex clientId clientSecret now env hnohit
  rw [heq]
  refine ⟨fetchAndCacheToken_ok _ _ _ _ _ _ _ _ _ hcid hcs t et hv ht,
    fetchAndCacheToken_setAttempts _ _ _ _ _ _ _ _ _ hcid hcs t et hv,
    fun httl => fetchAndCacheToken_sets_empty _ _ _ _ _ _ _ _ _ hcid hcs t et hv httl,
    fun httl h1 h2 => ?_⟩
  have hh : held = true := hheld h1 h2
  subst hh
  exact fetchAndCacheToken_sets_attempt _ _ _ _ _ _ _ _ hcid hcs t et hv ht httl

/-- Witness for the amended C2 at `expire_time = 30`: the fresh token is
returned and one cache write with TTL 30 is attempted. -/
theorem getAccessToken_ttl_policy_witness :
    (getAccessToken shaD hmacD "cid" "secret" "0" envMargin).1 = .ok "tok" ∧
    (getAccessToken shaD hmacD "cid" "secret" "0" envMargin).2.setAttempts =
      [((30 : Int), true)] := by
  have h := getAccessToken_ttl_policy shaD hmacD "cid" "secret" "0" envMargin "tok" 30
    (by decide) (by decide) rfl (by decide) (Or.inr (Or.inl rfl))
  refine ⟨h.1, ?_⟩
  have h4 := h.2.2.2 (by norm_num) rfl rfl
  simpa using h4

/-- Claim C4: `generateSign` is a pure function of
(method, path, body, token, clientId, clientSecret, timestamp); for a
fixed timestamp identical inputs yield the identical signature, which is
the uppercase hex HMAC-SHA256, keyed by the client secret, of the string
clientId + token + timestamp followed by method, newline, the SHA-256 hex
hash of the body, an empty line, and the path; the returned timestamp is
the value embedded in the signed string. -/
theorem generateSign_formula (sha256hex : String → String)
    (hmacSha256hex : String → String → String)
    (clientId clientSecret timestamp method path body token : String)
    (hcid : clientId.isEmpty = false) (hcs : clientSecret.isEmpty = false) :
    generateSign sha256hex hmacSha256hex clientId clientSecret timestamp
        method path body token =
      .ok ⟨(hmacSha256hex clientSecret
            (clientId ++ token ++ timestamp ++
              (method ++ "\n" ++ sha256hex body ++ "\n\n" ++ path))).toUpper,
        timestamp, clientId⟩ := by
  simp [generateSign, hcid, hcs]

/-- Witness for C4 at concrete inputs. -/
theorem generateSign_formula_witness :
    generateSign shaD hmacD "cid" "secret" "17" "GET" "/v1.0/x" "b" "tok" =
      .ok ⟨(hmacD "secret"
            ("cid" ++ "tok" ++ "17" ++ ("GET" ++ "\n" ++ shaD "b" ++ "\n\n" ++ "/v1.0/x"))).toUpper,
        "17", "cid"⟩ :=
  generateSign_formula shaD hmacD "cid" "secret" "17" "GET" "/v1.0/x" "b" "tok"
    (by decide) (by decide)

/-- Claim C8: when either vendor credential is absent (falsy), every call
to the module handler returns exactly the missing-credentials failure
object and performs no `makeCustomRequest` call (hence no network and no
cache call). -/
theorem handler_missing_credentials (parseJson : String → Except String JVal)
    (mcr : String → String → Option JVal → Except HandlerErr Envelope)
    (clientId clientSecret now : String) (qp : QueryParams)
    (h : clientId.isEmpty = true ∨ clientSecret.isEmpty = true) :
    tuyaHandler parseJson mcr clientId clientSecret now qp =
      (.jobj [("success", .jbool false),
        ("message", .jstr "Server error: Missing Tuya credentials.")], []) := by
  unfold tuyaHandler
  rcases h with h | h <;> simp [h]

/-- Witness for C8 with an empty client id and an arbitrary action. -/
theorem handler_missing_credentials_witness :
    tuyaHandler parseJsonD (fun _ _ _ => .error ⟨"net", none⟩) "" "secret" "T"
        ⟨some "devices", none, none, none, none, none, none⟩ =
      (.jobj [("success", .jbool false),
        ("message", .jstr "Server error: Missing Tuya credentials.")], []) :=
  handler_missing_credentials parseJsonD (fun _ _ _ => .error ⟨"net", none⟩) "" "secret" "T"
    ⟨some "devices", none, none, none, none, none, none⟩ (Or.inl (by decide))

/-- Claim C10: when the `action` query parameter is absent or falsy, the
module defaults the action to "test" and returns the static success
acknowledgement with the timestamp, performing no `makeCustomRequest`
call. -/
theorem handler_default_action_test (parseJson : String → Except String JVal)
    (mcr : String → String → Option JVal → Except HandlerErr Envelope)
    (clientId clientSecret now : String) (qp : QueryParams)
    (hcid : clientId.isEmpty = false) (hcs : clientSecret.isEmpty = false)
    (ha : qp.action = none ∨ qp.action = some "") :
    tuyaHandler parseJson mcr clientId clientSecret now qp =
      (.jobj [("success", .jbool true), ("message", .jstr "Tuya module working"),
        ("timestamp", .jstr now)], []) := by
  have h2 : orDefault qp.action "test" = "test" := by
    rcases ha with h | h <;> rw [h] <;> rfl
  unfold tuyaHandler
  simp [hcid, hcs, h2]

/-- Witness for C10 with no action parameter at all. -/
theorem handler_default_action_test_witness :
    tuyaHandler parseJsonD (fun _ _ _ => .error ⟨"net", none⟩) "cid" "secret" "T"
        ⟨none, none, none, none, none, none, none⟩ =
      (.jobj [("success", .jbool true), ("message", .jstr "Tuya module working"),
        ("timestamp", .jstr "T")], []) :=
  handler_default_action_test parseJsonD (fun _ _ _ => .error ⟨"net", none⟩) "cid" "secret" "T"
    ⟨none, none, none, none, none, none, none⟩ (by decide) (by decide) (Or.inl rfl)

/-- Claim C6: every cache-store connection acquired by `getAccessToken`
(read connection, write reconnection) or by `makeCustomRequest`'s retry
handling (deletion connection) is quit exactly once on every exit path --
cache hit, cache read error, successful fetch with or without a cache
write, cache write error, and fatal auth error -- and no connection that
was never acquired is ever quit. -/
theorem connections_released_exactly_once (sha256hex : String → String)
    (hmacSha256hex : String → String → String) (stringify : JVal → String)
    (clientId clientSecret now : String) (env : AuthEnv)
    (attempts : Bool → AttemptEnv) (method path : String) (data : Option JVal)
    (retry : Bool) :
    authConnsReleased (getAccessToken sha256hex hmacSha256hex clientId clientSecret now env).2 = true ∧
    mcrConnsReleased (makeCustomRequest sha256hex hmacSha256hex stringify clientId clientSecret now
      attempts method path data retry).2 = true :=
  ⟨getAccessToken_released sha256hex hmacSha256hex clientId clientSecret now env,
   makeCustomRequest_released sha256hex hmacSha256hex stringify clientId clientSecret now
     attempts method path data retry⟩

/-- Claim C1: when both attempts decode to the sentinel code 1010,
`makeCustomRequest` (called with the retry flag set) deletes the cached
token best-effort, re-invokes itself exactly once with the flag cleared,
and returns the second envelope verbatim: the vendor resource endpoint is
contacted exactly twice and exactly one deletion branch runs. -/
theorem makeCustomRequest_retries_exactly_once (sha256hex : String → String)
    (hmacSha256hex : String → String → String) (stringify : JVal → String)
    (clientId clientSecret now : String) (attempts : Bool → AttemptEnv)
    (method path : String) (data : Option JVal)
    (t1 t2 : String) (s1 s2 : Nat) (e1 e2 : Envelope)
    (hcid : clientId.isEmpty = false) (hcs : clientSecret.isEmpty = false)
    (ha1 : (getAccessToken sha256hex hmacSha256hex clientId clientSecret now (attempts true).auth).1 = .ok t1)
    (ha2 : (getAccessToken sha256hex hmacSha256hex clientId clientSecret now (attempts false).auth).1 = .ok t2)
    (hh1 : (attempts true).http = .resp s1 e1) (hc1 : e1.code = some 1010)
    (hh2 : (attempts false).http = .resp s2 e2) (hc2 : e2.code = some 1010) :
    (makeCustomRequest sha256hex hmacSha256hex stringify clientId clientSecret now
      attempts method path data true).1 = .ok e2 ∧
    (makeCustomRequest sha256hex hmacSha256hex stringify clientId clientSecret now
      attempts method path data true).2.resourceCalls = 2 ∧
    (makeCustomRequest sha256hex hmacSha256hex stringify clientId clientSecret now
      attempts method path data true).2.dels.length = 1 := by
  have h2 : (makeCustomRequest sha256hex hmacSha256hex stringify clientId clientSecret now
        attempts method path data false).1 = .ok e2 ∧
      (makeCustomRequest sha256hex hmacSha256hex stringify clientId clientSecret now
        attempts method path data false).2.resourceCalls = 1 ∧
      (makeCustomRequest sha256hex hmacSha256hex stringify clientId clientSecret now
        attempts method path data false).2.dels = [] := by
    rcases hga : getAccessToken sha256hex hmacSha256hex clientId clientSecret now
        (attempts false).auth with ⟨r, tr⟩
    rw [hga] at ha2
    simp only at ha2
    subst ha2
    rw [makeCustomRequest.eq_def]
    dsimp only
    rw [hga]
    simp [generateSign, hcid, hcs, hh2, hc2]
  rcases hga1 : getAccessToken sha256hex hmacSha256hex clientId clientSecret now
      (attempts true).auth with ⟨r1, tr1⟩
  rw [hga1] at ha1
  simp only at ha1
  subst ha1
  rw [makeCustomRequest.eq_def]
  dsimp only
  rw [hga1]
  simp [generateSign, hcid, hcs, hh1, hc1, h2.1, h2.2.1, h2.2.2]

/-- Witness for C1: a concrete environment whose resource endpoint always
answers with the sentinel envelope is contacted exactly twice, and the
second envelope is returned verbatim. -/
theorem makeCustomRequest_retries_exactly_once_witness :
    (makeCustomRequest shaD hmacD stringifyD "cid" "secret" "0" attemptsW
      "GET" "/v1.0/x" none true).1 = .ok env1010W ∧
    (makeCustomRequest shaD hmacD stringifyD "cid" "secret" "0" attemptsW
      "GET" "/v1.0/x" none true).2.resourceCalls = 2 ∧
    (makeCustomRequest shaD hmacD stringifyD "cid" "secret" "0" attemptsW
      "GET" "/v1.0/x" none true).2.dels.length = 1 :=
  makeCustomRequest_retries_exactly_once shaD hmacD stringifyD "cid" "secret" "0" attemptsW
    "GET" "/v1.0/x" none "tok" "tok" 200 200 env1010W env1010W
    (by decide) (by decide) rfl rfl rfl rfl rfl rfl

/-- Claim C5: for the status action, a successful envelope whose result is
a non-empty array whose first element carries the value "235" yields
exactly the bare number 23.5 (the value divided by 10, not wrapped in an
envelope); an envelope whose first element has no `value` field yields a
structured failure with `success = false` carrying the raw envelope under
`tuya_response`. -/
theorem handler_status_shapes (parseJson : String → Except String JVal)
    (mcr : String → String → Option JVal → Except HandlerErr Envelope)
    (clientId clientSecret now : String) (qp : QueryParams) (d : String)
    (hcid : clientId.isEmpty = false) (hcs : clientSecret.isEmpty = false)
    (ha : qp.action = some "status") (hid : qp.id = some d) (hd : d.isEmpty = false) :
    (∀ (env1 : Envelope) (rest : List JVal),
      mcr "GET" ("/v1.0/iot-03/devices/" ++ d ++ "/status") none = .ok env1 →
      env1.success = true →
      env1.result = some (.jarr (.jobj [("value", .jstr "235")] :: rest)) →
      (tuyaHandler parseJson mcr clientId clientSecret now qp).1 = .jnum (23.5 : ℚ)) ∧
    (∀ (env2 : Envelope) (x : JVal) (rest : List JVal),
      mcr "GET" ("/v1.0/iot-03/devices/" ++ d ++ "/status") none = .ok env2 →
      env2.result = some (.jarr (x :: rest)) →
      getField x "value" = none →
      (tuyaHandler parseJson mcr clientId clientSecret now qp).1 =
        .jobj [("success", .jbool false),
          ("message", .jstr "Failed to parse device status data"),
          ("tuya_response", envelopeToJVal env2)]) := by
  constructor
  · intro env1 rest hres hsucc hshape
    have hp : parseFloatStr "235" = some 235 := by
      simp +decide [parseFloatStr, parseFloatChars, digitsToNat]
    unfold tuyaHandler
    rw [ha, hid]
    simp +decide [optTruthy, hd, hcid, hcs, hres, hsucc, hshape, getField, lookupField,
      parseFloatJ, hp]
    norm_num
  · intro env2 x rest hres hshape hval
    unfold tuyaHandler
    rw [ha, hid]
    simp +decide [optTruthy, hd, hcid, hcs, hres, hshape, hval, statusFailObj]

/-- Witness for C5: concrete status calls on both envelope shapes. -/
theorem handler_status_shapes_witness :
    (tuyaHandler parseJsonD mcrStatusD "cid" "secret" "T"
      ⟨some "status", none, none, none, some "dev1", none, none⟩).1 = .jnum (23.5 : ℚ) ∧
    (tuyaHandler parseJsonD mcrNoValueD "cid" "secret" "T"
      ⟨some "status", none, none, none, some "dev1", none, none⟩).1 =
      .jobj [("success", .jbool false),
        ("message", .jstr "Failed to parse device status data"),
        ("tuya_response", envelopeToJVal ⟨true, none, none,
          some (.jarr [.jobj [("code", .jstr "temp")]])⟩)] :=
  ⟨(handler_status_shapes parseJsonD mcrStatusD "cid" "secret" "T"
      ⟨some "status", none, none, none, some "dev1", none, none⟩ "dev1"
      (by decide) (by decide) rfl rfl (by decide)).1
      ⟨true, none, none, some (.jarr [.jobj [("value", .jstr "235")]])⟩ [] rfl rfl rfl,
   (handler_status_shapes parseJsonD mcrNoValueD "cid" "secret" "T"
      ⟨some "status", none, none, none, some "dev1", none, none⟩ "dev1"
      (by decide) (by decide) rfl rfl (by decide)).2
      ⟨true, none, none, some (.jarr [.jobj [("code", .jstr "temp")]])⟩
      (.jobj [("code", .jstr "temp")]) [] rfl rfl rfl⟩

/-- Claim C7: for the control action, a command whose lower-cased value is
neither "on" nor "off" is rejected with a failure object before any
`makeCustomRequest` call (empty call log, hence no token acquisition,
signing, or network call); commands lowering to "on"/"off" produce exactly
one POST to the device commands path. -/
theorem handler_control_gate (parseJson : String → Except String JVal)
    (mcr : String → String → Option JVal → Except HandlerErr Envelope)
    (clientId clientSecret now : String) (qp : QueryParams) (d c : String)
    (hcid : clientId.isEmpty = false) (hcs : clientSecret.isEmpty = false)
    (ha : qp.action = some "control") (hid : qp.id = some d) (hd : d.isEmpty = false)
    (hcmd : qp.command = some c) (hc : c.isEmpty = false) :
    ((toLowerStr c ≠ "on" ∧ toLowerStr c ≠ "off") →
      tuyaHandler parseJson mcr clientId clientSecret now qp =
        (.jobj [("success", .jbool false),
          ("message", .jstr "Invalid command. Only \"on\" or \"off\" are supported.")], [])) ∧
    ((toLowerStr c = "on" ∨ toLowerStr c = "off") →
      (tuyaHandler parseJson mcr clientId clientSecret now qp).2 =
        [("POST", "/v1.0/devices/" ++ d ++ "/commands",
          some (JVal.jobj [("commands", .jarr [.jobj [("code", .jstr (orDefault qp.code "switch_1")),
            ("value", .jbool (toLowerStr c == "on"))]])]))]) := by
  constructor
  · intro hno
    unfold tuyaHandler
    rw [ha, hid, hcmd]
    simp +decide [orDefault, optTruthy, hd, hc, hcid, hcs, hno.1, hno.2]
  · intro hyes
    rcases hyes with h | h <;>
      (unfold tuyaHandler
       rw [ha, hid, hcmd]
       simp +decide [optTruthy, hd, hc, hcid, hcs, h]
       split <;> rfl)

/-- Witness for C7: the command "up" is rejected with no call logged, and
the command "on" produces exactly the one POST. -/
theorem handler_control_gate_witness :
    tuyaHandler parseJsonD mcrNetD "cid" "secret" "T"
        ⟨some "control", none, none, none, some "dev", some "up", none⟩ =
      (.jobj [("success", .jbool false),
        ("message", .jstr "Invalid command. Only \"on\" or \"off\" are supported.")], []) ∧
    (tuyaHandler parseJsonD mcrNetD "cid" "secret" "T"
        ⟨some "control", none, none, none, some "dev", some "on", none⟩).2 =
      [("POST", "/v1.0/devices/" ++ "dev" ++ "/commands",
        some (JVal.jobj [("commands", .jarr [.jobj [("code", .jstr (orDefault none "switch_1")),
          ("value", .jbool (toLowerStr "on" == "on"))]])]))] :=
  ⟨(handler_control_gate parseJsonD mcrNetD "cid" "secret" "T"
      ⟨some "control", none, none, none, some "dev", some "up", none⟩ "dev" "up"
      (by decide) (by decide) rfl rfl (by decide) rfl (by decide)).1
      ⟨by decide, by decide⟩,
   (handler_control_gate parseJsonD mcrNetD "cid" "secret" "T"
      ⟨some "control", none, none, none, some "dev", some "on", none⟩ "dev" "on"
      (by decide) (by decide) rfl rfl (by decide) rfl (by decide)).2
      (Or.inl (by decide))⟩

end Tuya
